import Mathlib

/-!
Shallow embedding of `src/helpers.py` (auto_empirical repository): the
Robust Table Loader (`read_csv_robust`), the Bootstrap Estimator
(`bootstrap_mean`) and the Descriptive Summarizer
(`pretty_print_desc_stats`), together with models of the numpy/scipy
primitives they call.  Machine floats are modelled as exact rationals
plus an explicit NaN value (`RVal`); Python exceptions are modelled by
the `Except` monad over `PyError`.  The spec's `InvalidInputError`
corresponds to the `ValueError`s raised by the source, and its
`IngestionError` to the final `ValueError` of `read_csv_robust`.
-/

deriving instance DecidableEq for Except

namespace AutoEmpirical

/-- An IEEE-double value as the code manipulates it: either NaN (numpy's
quiet result for empty means, `ddof`-degenerate standard deviations, …)
or an exact numeric value, modelled as a rational. -/
inductive RVal where
  | nan : RVal
  | val : ℚ → RVal
deriving DecidableEq, Repr

/-- The Python exception kinds the embedded code can raise.  `valueError`
is the source's `ValueError` (the spec's `InvalidInputError` /
`IngestionError`); `typeError` is the `TypeError` numpy raises when a
reduction meets non-numeric dtype; `osError` is the `OSError` family
(`FileNotFoundError`, …) raised by `open`. -/
inductive PyError where
  | valueError : String → PyError
  | typeError : String → PyError
  | osError : String → PyError
deriving DecidableEq, Repr

/-- Arithmetic mean of a nonempty numeric list (the value `np.mean`
returns when the array is nonempty). -/
def meanQ (xs : List ℚ) : ℚ := xs.sum / xs.length

/-- `np.mean`: NaN on an empty array (numpy emits a RuntimeWarning and
returns NaN, it does not raise), otherwise the arithmetic mean. -/
def npMean (xs : List ℚ) : RVal :=
  if xs.length = 0 then .nan else .val (meanQ xs)

/-- `np.median`: sort, then middle element (odd length) or average of the
two middle elements (even length); NaN on an empty array. -/
def npMedian (xs : List ℚ) : RVal :=
  let s := List.insertionSort (· ≤ ·) xs
  let n := s.length
  if n = 0 then .nan
  else if n % 2 = 1 then .val (s.getD (n / 2) 0)
  else .val ((s.getD (n / 2 - 1) 0 + s.getD (n / 2) 0) / 2)

/-- The square of `np.std(xs, ddof)`: mean squared deviation with
divisor `n - ddof`.  When `n = 0` the mean is already NaN; when
`0 < n ≤ ddof` the divisor is `≤ 0` and numpy warns and returns NaN —
in neither case is an exception raised.  We track the square because the
square root of a rational is irrational; NaN-ness and the divisor are
unaffected by the final monotone square root. -/
def npStdSqDdof (xs : List ℚ) (ddof : ℕ) : RVal :=
  let n := xs.length
  if n = 0 then .nan
  else if n ≤ ddof then .nan
  else .val ((xs.map (fun x => (x - meanQ xs) ^ 2)).sum / ((n : ℚ) - (ddof : ℚ)))

/-- `np.percentile(xs, 100*q)` with the default linear interpolation:
on the sorted list `s` of length `m`, position `q*(m-1)`, linearly
interpolated between the two adjacent order statistics.  NaN on an empty
list. -/
def percentileLinear (xs : List ℚ) (q : ℚ) : RVal :=
  let s := List.insertionSort (· ≤ ·) xs
  let m := s.length
  if m = 0 then .nan
  else
    let pos : ℚ := q * ((m : ℚ) - 1)
    let i : ℕ := (Int.floor pos).toNat
    if i + 1 < m then
      .val (s.getD i 0 + (pos - (i : ℚ)) * (s.getD (i + 1) 0 - s.getD i 0))
    else .val (s.getD (m - 1) 0)

/-! ## Robust Table Loader (`read_csv_robust`)

A CSV file on disk is modelled extensionally by what the Python calls on
it can observe: whether `open` succeeds, what `chardet` detects on the
byte prefix, and what `pd.read_csv` does for each `encoding=` argument
(a parsed table, or an exception message). -/

/-- A parsed table: named columns of string cells (the claims never
inspect the cells, only table identity). -/
structure Table where
  cols : List (String × List String)
deriving DecidableEq, Repr

/-- Extensional model of a file as `read_csv_robust` observes it.
`openError = some m` means `open(file_path, 'rb')` raises `OSError(m)`;
`detected` is the encoding name `chardet.detect` returns on the byte
prefix (possibly `none`); `parse enc` is the outcome of
`pd.read_csv(file_path, encoding=enc, on_bad_lines='skip', sep=sep)`,
an `Except` carrying the exception message on failure. -/
structure CsvFile where
  path : String
  openError : Option String
  detected : Option String
  parse : Option String → Except String Table

/-- The message of the `ValueError` raised when all three attempts fail
(verbatim from the source). -/
def allFailMsg : String :=
  "All attempts failed. Please check the file for issues beyond encoding."

/-- `read_csv_robust`, instrumented with the list of `encoding=`
arguments actually handed to `pd.read_csv`, in order.  The source first
runs `detect_encoding` (whose `open` is outside every `try`, so an
`OSError` propagates unchanged), then tries the detected encoding, then
`'utf-8'`, then `'ISO-8859-1'`, returning the first successful parse and
raising `ValueError(allFailMsg)` when all three fail. -/
def readCsvRobustTrace (f : CsvFile) : Except PyError Table × List (Option String) :=
  match f.openError with
  | some m => (.error (.osError m), [])
  | none =>
    match f.parse f.detected with
    | .ok t => (.ok t, [f.detected])
    | .error _ =>
      match f.parse (some "utf-8") with
      | .ok t => (.ok t, [f.detected, some "utf-8"])
      | .error _ =>
        match f.parse (some "ISO-8859-1") with
        | .ok t => (.ok t, [f.detected, some "utf-8", some "ISO-8859-1"])
        | .error _ =>
          (.error (.valueError allFailMsg),
           [f.detected, some "utf-8", some "ISO-8859-1"])

/-- `read_csv_robust`: the returned dataframe / raised exception. -/
def readCsvRobust (f : CsvFile) : Except PyError Table :=
  (readCsvRobustTrace f).1

/-- The attempt `pd.read_csv(..., encoding := enc)` fails on this file. -/
def parseFails (f : CsvFile) (enc : Option String) : Prop :=
  ∃ m, f.parse enc = Except.error m

/-- The encoding-attempt order the source implements: detected encoding,
then UTF-8, then ISO-8859-1. -/
def codeAttemptOrder (d : Option String) : List (Option String) :=
  [d, some "utf-8", some "ISO-8859-1"]

/-- The encoding-attempt order as the spec words it (Fallback A = the
single-byte encoding ISO-8859-1, Fallback B = UTF-8), written down only
to be compared with the order the code implements. -/
def specClaimedAttemptOrder (d : Option String) : List (Option String) :=
  [d, some "ISO-8859-1", some "utf-8"]

/-! ## Bootstrap Estimator (`bootstrap_mean`) -/

/-- A Python scalar as it can occur inside an input container: a numeric
value or a non-numeric one (modelled by its string). -/
inductive PyVal where
  | num : ℚ → PyVal
  | str : String → PyVal
deriving DecidableEq, Repr

/-- The input container handed to `bootstrap_mean`: a pandas Series, a
Python list, a numpy array, or any other object (carried with its type
name).  One-dimensional contents suffice: `ravel` is the identity. -/
inductive PyInput where
  | series : List PyVal → PyInput
  | pylist : List PyVal → PyInput
  | ndarray : List PyVal → PyInput
  | other : String → PyInput
deriving DecidableEq, Repr

/-- The container-shape check at the top of `bootstrap_mean`: Series and
lists are converted to numpy arrays, arrays pass through, anything else
raises `ValueError`. -/
def coerceInput : PyInput → Except PyError (List PyVal)
  | .series xs => .ok xs
  | .pylist xs => .ok xs
  | .ndarray xs => .ok xs
  | .other _ => .error (.valueError "Input data must be a Pandas Series, list, or numpy array")

/-- Numeric view of the array contents: `some` when every element is
numeric, `none` when the dtype is non-numeric. -/
def allNum : List PyVal → Option (List ℚ)
  | [] => some []
  | .num q :: vs => (allNum vs).map fun rest => q :: rest
  | .str _ :: _ => none

/-- The message of the `TypeError` numpy raises when `np.mean` reduces a
non-numeric (string-dtype) array. -/
def flexibleTypeMsg : String := "cannot perform reduce with flexible type"

/-- The numeric contents the validated call works on, when the container
shape is supported and the dtype numeric. -/
def extractNums (c : PyInput) : Option (List ℚ) :=
  match coerceInput c with
  | .ok xs => allNum xs
  | .error _ => none

/-- Modelled from the spec: the deterministic pseudorandom generator
scipy's `bootstrap` builds from `random_state=seed` ("a pseudorandom
generator deterministically seeded by `seed`").  scipy's concrete
generator is numpy's, which the embedding replaces by a 64-bit linear
congruential step; every claim settled here uses only that the stream is
a pure function of the seed. -/
def lcgNext (s : ℕ) : ℕ := (6364136223846793005 * s + 1442695040888963407) % 2 ^ 64

/-- Successive generator states: `count` states following `s0`. -/
def lcgStream (s0 : ℕ) : ℕ → List ℕ
  | 0 => []
  | k + 1 => lcgNext s0 :: lcgStream (lcgNext s0) k

/-- Modelled from the spec: one resample-with-replacement of the same
size as the data, each element picked by a generator state. -/
def resampleFrom (qs : List ℚ) (states : List ℕ) : List ℚ :=
  states.map fun s => qs.getD (s % qs.length) 0

/-- Modelled from the spec: the empirical bootstrap distribution for the
mean statistic — `nResamples` resamples-with-replacement of the data's
size, drawn from the seeded generator, each reduced by the mean. -/
def bootstrapDistribution (qs : List ℚ) (nResamples seed : ℕ) : List ℚ :=
  (List.range nResamples).map fun k =>
    meanQ (resampleFrom qs (lcgStream (lcgNext (seed * 2 ^ 32 + k)) qs.length))

/-- The dict `bootstrap_mean` returns: point estimate and the two
confidence-interval endpoints. -/
structure BootstrapResult where
  mean : RVal
  lower : RVal
  upper : RVal
deriving DecidableEq, Repr

/-- `bootstrap_mean(data, n_bootstrap, ci, seed)`.  Shape check, then
emptiness check (`ValueError("Input data is empty")`), then
`data_mean = np.mean(data)` (which raises `TypeError` on non-numeric
dtype — there is no numeric validation before it), then
`scipy.stats.bootstrap((data,), np.mean, n_resamples=n_bootstrap,
random_state=seed, confidence_level=ci/100, method='percentile')`,
whose percentile-method interval takes the `(1-cl)/2` and `1-(1-cl)/2`
empirical percentiles of the bootstrap distribution (`ci` arrives as a
percentage and is divided by 100). -/
def bootstrapMean (data : PyInput) (nBootstrap : ℕ) (ci : ℚ) (seed : ℕ) :
    Except PyError BootstrapResult :=
  match coerceInput data with
  | .error e => .error e
  | .ok xs =>
    if xs.length = 0 then .error (.valueError "Input data is empty")
    else
      match allNum xs with
      | none => .error (.typeError flexibleTypeMsg)
      | some qs =>
        let dist := bootstrapDistribution qs nBootstrap seed
        .ok { mean := .val (meanQ qs)
              lower := percentileLinear dist ((1 - ci / 100) / 2)
              upper := percentileLinear dist (1 - (1 - ci / 100) / 2) }

/-- `bootstrap_mean` with the ambient global numpy generator made
explicit.  The source passes `random_state=seed` to scipy, so the call
neither reads nor advances the global stream: the result ignores it and
the state comes back unchanged. -/
def bootstrapMeanWithGlobalRng (globalRng : ℕ) (data : PyInput) (nBootstrap : ℕ)
    (ci : ℚ) (seed : ℕ) : Except PyError BootstrapResult × ℕ :=
  (bootstrapMean data nBootstrap ci seed, globalRng)

/-! ## Descriptive Summarizer (`pretty_print_desc_stats`) -/

/-- Which interval method a `scipy.stats.bootstrap` call uses:
`method='percentile'` as `bootstrap_mean` passes, or the library default
`'BCa'` (bias-corrected and accelerated) used when the keyword is
omitted. -/
inductive BootMethod where
  | percentile : BootMethod
  | bca : BootMethod
deriving DecidableEq, Repr

/-- The argument record of a `scipy.stats.bootstrap` call — the
boundary at which the Summarizer hands off to the library. -/
structure BootstrapCall where
  data : List ℚ
  nResamples : ℕ
  seed : ℕ
  confidenceLevel : ℚ
  method : BootMethod
deriving DecidableEq, Repr

/-- The values `pretty_print_desc_stats` computes before formatting
(`sdSq` is the square of `np.std(data, ddof=1)`), plus the scipy
bootstrap call it issues when `ci=True`. -/
structure DescStats where
  mean : RVal
  median : RVal
  sdSq : RVal
  ciCall : Option BootstrapCall
deriving DecidableEq, Repr

/-- `pretty_print_desc_stats(data, n_bootstrap, ci, ci_level, seed)`
(the `n_digits` rounding of the returned LaTeX string is out of scope —
it formats these values and adds nothing).  The source converts `data`
to an array and immediately computes `np.mean`, `np.median` and
`np.std(..., ddof=1)` with no validation of any kind; when `ci` is true
it calls `scipy.stats.bootstrap((data,), np.mean,
n_resamples=n_bootstrap, random_state=seed, confidence_level=ci_level)`
with no `method` keyword, so the library default `'BCa'` applies. -/
def prettyPrintDescStats (data : List ℚ) (nBootstrap : ℕ) (ci : Bool)
    (ciLevel : ℚ) (seed : ℕ) : Except PyError DescStats :=
  .ok { mean := npMean data
        median := npMedian data
        sdSq := npStdSqDdof data 1
        ciCall :=
          if ci then
            some { data := data, nResamples := nBootstrap, seed := seed
                   confidenceLevel := ciLevel, method := .bca }
          else none }

/-! ## Concrete files used by witnesses and counterexamples -/

/-- A file on which every `pd.read_csv` attempt fails with message
`"boom"`. -/
def fileAllFail : CsvFile :=
  { path := "a.csv", openError := none, detected := some "ascii"
    parse := fun _ => .error "boom" }

/-- A second all-attempts-fail file with a different path and different
underlying error text. -/
def fileAllFailB : CsvFile :=
  { path := "b.csv", openError := none, detected := some "cp1252"
    parse := fun _ => .error "totally different failure text" }

/-- A small parsed table. -/
def tableU : Table := { cols := [("colA", ["1", "2"])] }

/-- A file whose detected-encoding parse fails and whose UTF-8 parse
succeeds (any other encoding fails), isolating the second attempt. -/
def fileUtf8Second : CsvFile :=
  { path := "c.csv", openError := none, detected := some "ascii"
    parse := fun enc => if enc = some "utf-8" then .ok tableU else .error "decode error" }

/-- A file that cannot be opened at all. -/
def fileMissing : CsvFile :=
  { path := "missing.csv"
    openError := some "No such file or directory: 'missing.csv'"
    detected := none, parse := fun _ => .error "unreachable" }

/-! ## Helper lemmas -/

/-- A successful `allNum` preserves the length of the array. -/
theorem allNum_length : ∀ (xs : List PyVal) (qs : List ℚ),
    allNum xs = some qs → xs.length = qs.length
  | [], qs, h => by
    simp only [allNum, Option.some.injEq] at h
    simp [← h]
  | .num q :: vs, qs, h => by
    simp only [allNum, Option.map_eq_some'] at h
    rcases h with ⟨rest, hr, hq⟩
    simp [← hq, allNum_length vs rest hr]
  | .str s :: vs, qs, h => by
    simp [allNum] at h

/-- Evaluating `bootstrap_mean` on a coercible, nonempty, numeric input:
point estimate is the mean of the original data, interval endpoints are
the `(1-cl)/2` and `1-(1-cl)/2` empirical percentiles of the bootstrap
distribution. -/
theorem bootstrapMean_eq (c : PyInput) (qs : List ℚ) (n : ℕ) (ci : ℚ) (s : ℕ)
    (h : extractNums c = some qs) (hne : qs ≠ []) :
    bootstrapMean c n ci s =
      .ok { mean := .val (meanQ qs)
            lower := percentileLinear (bootstrapDistribution qs n s) ((1 - ci / 100) / 2)
            upper := percentileLinear (bootstrapDistribution qs n s) (1 - (1 - ci / 100) / 2) } := by
  unfold extractNums at h
  rcases e : coerceInput c with er | xs
  · rw [e] at h; exact absurd h (by simp)
  · rw [e] at h
    have h' : allNum xs = some qs := h
    have hlen : xs.length = qs.length := allNum_length xs qs h'
    have hnz : ¬ xs.length = 0 := by
      rw [hlen]
      simpa [List.length_eq_zero] using hne
    unfold bootstrapMean
    rw [e]
    simp only [hnz, if_false, h']

/-! ## Claims -/

/-- C1: two calls of `bootstrap_mean` with identical
`(sample, nResamples, confidenceLevel, seed)` return bit-identical
results, regardless of the ambient global generator state (the call
passes `random_state=seed`, so it neither reads nor advances the global
stream): the estimate is a pure function of its arguments. -/
theorem C1_estimate_deterministic (g₁ g₂ : ℕ) (data : PyInput) (n : ℕ) (ci : ℚ) (s : ℕ) :
    (bootstrapMeanWithGlobalRng g₁ data n ci s).1 = (bootstrapMeanWithGlobalRng g₂ data n ci s).1 ∧
    (bootstrapMeanWithGlobalRng g₁ data n ci s).1 = bootstrapMean data n ci s ∧
    (bootstrapMeanWithGlobalRng g₁ data n ci s).2 = g₁ :=
  ⟨rfl, rfl, rfl⟩

/-- C2 counterexample: `pretty_print_desc_stats` on an empty sample does
NOT raise `InvalidInputError`; it returns a summary whose mean, median
and SD are NaN. -/
theorem C2_counterexample :
    prettyPrintDescStats [] 10000 false (19 / 20) 42 =
      .ok { mean := .nan, median := .nan, sdSq := .nan, ciCall := none } := rfl

/-- C2 (amended): `bootstrap_mean` on an empty sample (whatever the
supported container) fails with `ValueError("Input data is empty")`
before any computation, while `pretty_print_desc_stats` on an empty
sample performs no validation and returns a NaN-valued summary. -/
theorem C2_empty_sample (n : ℕ) (ci : ℚ) (s : ℕ) (cl : ℚ) :
    bootstrapMean (.pylist []) n ci s = .error (.valueError "Input data is empty") ∧
    bootstrapMean (.series []) n ci s = .error (.valueError "Input data is empty") ∧
    bootstrapMean (.ndarray []) n ci s = .error (.valueError "Input data is empty") ∧
    prettyPrintDescStats [] n false cl s =
      .ok { mean := .nan, median := .nan, sdSq := .nan, ciCall := none } :=
  ⟨rfl, rfl, rfl, rfl⟩

/-- C3 counterexample: two files with different paths and different
underlying error messages, on which all three attempts fail, produce
the very same exception — the fixed-message `ValueError` — so the raised
error carries neither the file path nor the three underlying messages. -/
theorem C3_counterexample :
    readCsvRobust fileAllFail = readCsvRobust fileAllFailB ∧
    readCsvRobust fileAllFail = .error (.valueError allFailMsg) ∧
    fileAllFail.path ≠ fileAllFailB.path :=
  ⟨rfl, rfl, by decide⟩

/-- C3 (amended): on an openable file, `read_csv_robust` raises exactly
when all three encoding attempts fail, and the only exception it raises
is `ValueError` with the fixed message `allFailMsg` (no path, no
underlying messages); when some attempt succeeds a parsed table is
returned. -/
theorem C3_ingestion_error_iff (f : CsvFile) (h : f.openError = none) :
    (readCsvRobust f = .error (.valueError allFailMsg) ↔
       (parseFails f f.detected ∧ parseFails f (some "utf-8") ∧
        parseFails f (some "ISO-8859-1"))) ∧
    (∀ e, readCsvRobust f = .error e → e = .valueError allFailMsg) ∧
    (¬ (parseFails f f.detected ∧ parseFails f (some "utf-8") ∧
        parseFails f (some "ISO-8859-1")) → ∃ t, readCsvRobust f = .ok t) := by
  unfold readCsvRobust readCsvRobustTrace
  rw [h]
  rcases e1 : f.parse f.detected with m1 | t1
  · rcases e2 : f.parse (some "utf-8") with m2 | t2
    · rcases e3 : f.parse (some "ISO-8859-1") with m3 | t3
      · refine ⟨?_, ?_, ?_⟩
        · simp [parseFails, e1, e2, e3]
        · intro e he
          simpa using he.symm
        · intro hnot
          exact absurd ⟨⟨m1, e1⟩, ⟨m2, e2⟩, ⟨m3, e3⟩⟩ hnot
      · refine ⟨?_, ?_, ?_⟩
        · simp [parseFails, e3]
        · intro e he; simp at he
        · intro _; exact ⟨t3, rfl⟩
    · refine ⟨?_, ?_, ?_⟩
      · simp [parseFails, e2]
      · intro e he; simp at he
      · intro _; exact ⟨t2, rfl⟩
  · refine ⟨?_, ?_, ?_⟩
    · simp [parseFails, e1]
    · intro e he; simp at he
    · intro _; exact ⟨t1, rfl⟩

/-- C3 witness: on a concrete all-attempts-fail file the theorem yields
the fixed-message `ValueError`. -/
theorem C3_ingestion_error_iff_witness :
    readCsvRobust fileAllFail = .error (.valueError allFailMsg) :=
  (C3_ingestion_error_iff fileAllFail rfl).1.mpr
    ⟨⟨"boom", rfl⟩, ⟨"boom", rfl⟩, ⟨"boom", rfl⟩⟩

/-- C4 counterexample: on a file whose detected-encoding attempt fails
and whose UTF-8 parse succeeds, the loader succeeds on its SECOND
attempt with UTF-8 — the order the code implements is detected, UTF-8,
ISO-8859-1, not the detected / ISO-8859-1 / UTF-8 order the claim
states. -/
theorem C4_counterexample :
    (readCsvRobustTrace fileUtf8Second).2 = [some "ascii", some "utf-8"] ∧
    readCsvRobust fileUtf8Second = .ok tableU ∧
    codeAttemptOrder (some "ascii") ≠ specClaimedAttemptOrder (some "ascii") :=
  ⟨rfl, rfl, by decide⟩

/-- C4 (amended): the fallback sequence is detected encoding, then
UTF-8, then ISO-8859-1, stopping at the first success: the attempt trace
is `[detected]` when the first parse succeeds, `[detected, utf-8]` when
only the second does, and the full `codeAttemptOrder` once the first two
attempts fail. -/
theorem C4_attempt_order (f : CsvFile) (h : f.openError = none) :
    ((∃ t, f.parse f.detected = .ok t) → (readCsvRobustTrace f).2 = [f.detected]) ∧
    (parseFails f f.detected → (∃ t, f.parse (some "utf-8") = .ok t) →
       (readCsvRobustTrace f).2 = [f.detected, some "utf-8"]) ∧
    (parseFails f f.detected → parseFails f (some "utf-8") →
       (readCsvRobustTrace f).2 = codeAttemptOrder f.detected) := by
  unfold readCsvRobustTrace codeAttemptOrder
  rw [h]
  refine ⟨?_, ?_, ?_⟩
  · rintro ⟨t, ht⟩
    rw [ht]
  · rintro ⟨m1, hm1⟩ ⟨t, ht⟩
    rw [hm1, ht]
  · rintro ⟨m1, hm1⟩ ⟨m2, hm2⟩
    rw [hm1, hm2]
    rcases e3 : f.parse (some "ISO-8859-1") with m3 | t3 <;> rfl

/-- C4 witness: the theorem applied to the concrete file whose UTF-8
attempt is the one that succeeds. -/
theorem C4_attempt_order_witness :
    (readCsvRobustTrace fileUtf8Second).2 = [some "ascii", some "utf-8"] :=
  (C4_attempt_order fileUtf8Second rfl).2.1 ⟨"decode error", rfl⟩ ⟨tableU, rfl⟩

/-- C5 counterexample: the Descriptive Summarizer's scipy bootstrap call
omits the `method` keyword, so it runs with the library default `BCa`
(bias-corrected and accelerated), not the percentile method the claim
asserts. -/
theorem C5_counterexample :
    (prettyPrintDescStats [1, 2, 3] 10 true (19 / 20) 42).map DescStats.ciCall =
      .ok (some { data := [1, 2, 3], nResamples := 10, seed := 42
                  confidenceLevel := 19 / 20, method := .bca }) ∧
    BootMethod.bca ≠ BootMethod.percentile :=
  ⟨rfl, by decide⟩

/-- C5 (amended): `bootstrap_mean`'s interval endpoints are exactly the
`(1-cl)/2` and `1-(1-cl)/2` empirical percentiles of the bootstrap
distribution (percentile method, no bias correction, with
`cl = ci/100`); the Descriptive Summarizer, however, does not call
`bootstrap_mean` — it invokes the library bootstrap directly with
`statistic = mean` and no `method` keyword, i.e. with the default BCa
method, so the percentile-bounds property is not what it computes. -/
theorem C5_percentile_bounds (c : PyInput) (qs : List ℚ) (n : ℕ) (ci : ℚ) (s : ℕ)
    (h : extractNums c = some qs) (hne : qs ≠ []) :
    bootstrapMean c n ci s =
      .ok { mean := .val (meanQ qs)
            lower := percentileLinear (bootstrapDistribution qs n s) ((1 - ci / 100) / 2)
            upper := percentileLinear (bootstrapDistribution qs n s) (1 - (1 - ci / 100) / 2) } ∧
    (∀ (data : List ℚ) (nb : ℕ) (cl : ℚ) (sd : ℕ),
       (prettyPrintDescStats data nb true cl sd).map DescStats.ciCall =
         .ok (some { data := data, nResamples := nb, seed := sd
                     confidenceLevel := cl, method := .bca })) :=
  ⟨bootstrapMean_eq c qs n ci s h hne, fun _ _ _ _ => rfl⟩

/-- C5 witness: the theorem instantiated on the sample `[1, 2]` with two
resamples, and the summarizer call record on `[1]`. -/
theorem C5_percentile_bounds_witness :
    bootstrapMean (.pylist [.num 1, .num 2]) 2 95 0 =
      .ok { mean := .val (meanQ [1, 2])
            lower := percentileLinear (bootstrapDistribution [1, 2] 2 0) ((1 - 95 / 100) / 2)
            upper := percentileLinear (bootstrapDistribution [1, 2] 2 0) (1 - (1 - 95 / 100) / 2) } ∧
    (prettyPrintDescStats [1] 3 true (1 / 2) 7).map DescStats.ciCall =
      .ok (some { data := [1], nResamples := 3, seed := 7
                  confidenceLevel := 1 / 2, method := .bca }) :=
  ⟨(C5_percentile_bounds (.pylist [.num 1, .num 2]) [1, 2] 2 95 0 rfl (by decide)).1,
   (C5_percentile_bounds (.pylist [.num 1, .num 2]) [1, 2] 2 95 0 rfl (by decide)).2 [1] 3 (1 / 2) 7⟩

/-- C6: for every coercible, nonempty, numeric sample the point estimate
returned by `bootstrap_mean` is the statistic (the mean) applied to the
original, non-resampled data, and it is independent of the seed and of
the number of resamples. -/
theorem C6_point_estimate (c : PyInput) (qs : List ℚ) (n₁ n₂ s₁ s₂ : ℕ) (ci₁ ci₂ : ℚ)
    (h : extractNums c = some qs) (hne : qs ≠ []) :
    (bootstrapMean c n₁ ci₁ s₁).map BootstrapResult.mean = .ok (.val (meanQ qs)) ∧
    (bootstrapMean c n₁ ci₁ s₁).map BootstrapResult.mean =
      (bootstrapMean c n₂ ci₂ s₂).map BootstrapResult.mean := by
  have m₁ : (bootstrapMean c n₁ ci₁ s₁).map BootstrapResult.mean = .ok (.val (meanQ qs)) := by
    rw [bootstrapMean_eq c qs n₁ ci₁ s₁ h hne]
    rfl
  have m₂ : (bootstrapMean c n₂ ci₂ s₂).map BootstrapResult.mean = .ok (.val (meanQ qs)) := by
    rw [bootstrapMean_eq c qs n₂ ci₂ s₂ h hne]
    rfl
  exact ⟨m₁, m₁.trans m₂.symm⟩

/-- C6 witness: the theorem instantiated on the numpy array `[2, 4]`
with two different seeds and resample counts. -/
theorem C6_point_estimate_witness :
    (bootstrapMean (.ndarray [.num 2, .num 4]) 3 95 1).map BootstrapResult.mean =
      .ok (.val (meanQ [2, 4])) ∧
    (bootstrapMean (.ndarray [.num 2, .num 4]) 3 95 1).map BootstrapResult.mean =
      (bootstrapMean (.ndarray [.num 2, .num 4]) 5 90 9).map BootstrapResult.mean :=
  C6_point_estimate (.ndarray [.num 2, .num 4]) [2, 4] 3 5 1 9 95 90 rfl (by decide)

/-- C7 counterexample: on the one-element sample `[5]` the Summarizer
raises nothing — it returns a summary whose SD is NaN (numpy warns and
yields NaN for `ddof=1` with `n=1`), not an `InvalidInputError`. -/
theorem C7_counterexample :
    prettyPrintDescStats [5] 10000 false (19 / 20) 42 =
      .ok { mean := .val 5, median := .val 5, sdSq := .nan, ciCall := none } := by
  simp [prettyPrintDescStats, npMean, npMedian, npStdSqDdof, meanQ,
    List.insertionSort, List.orderedInsert, List.getD]

/-- C7 (amended): the Summarizer's standard deviation is
Bessel-corrected — for `n ≥ 2` its square is the sum of squared
deviations divided by `n - 1` — but for `n < 2` no error is raised: the
call still succeeds and the SD is NaN. -/
theorem C7_sd_bessel_no_validation (xs : List ℚ) (n : ℕ) (b : Bool) (cl : ℚ) (s : ℕ) :
    (prettyPrintDescStats xs n b cl s).map DescStats.sdSq =
      .ok (if xs.length < 2 then RVal.nan
           else .val ((xs.map fun x => (x - meanQ xs) ^ 2).sum / ((xs.length : ℚ) - 1))) := by
  rcases xs with - | ⟨a, tl⟩
  · rfl
  · rcases tl with - | ⟨a2, tl2⟩
    · rfl
    · simp only [prettyPrintDescStats, Except.map, npStdSqDdof, List.length_cons]
      norm_num
      rw [if_neg (by omega)]

/-- C8 counterexample: a non-numeric sample is NOT rejected with
`InvalidInputError` — it passes the shape and emptiness validation and
the failure surfaces later, as the `TypeError` numpy raises while
reducing a string-dtype array. -/
theorem C8_counterexample :
    bootstrapMean (.pylist [.str "a"]) 10000 95 42 =
      .error (.typeError flexibleTypeMsg) := rfl

/-- C8 (amended): unsupported containers are rejected with a
`ValueError` at the boundary; a non-numeric sample passes validation and
fails only during computation, with a `TypeError`; a coercible, nonempty,
numeric sample always yields a result — resampling has no failure
mode. -/
theorem C8_validation (t : String) (xs : List PyVal) (c : PyInput) (qs : List ℚ)
    (n : ℕ) (ci : ℚ) (s : ℕ)
    (hstr : allNum xs = none) (hne : xs ≠ [])
    (hq : extractNums c = some qs) (hqne : qs ≠ []) :
    bootstrapMean (.other t) n ci s =
      .error (.valueError "Input data must be a Pandas Series, list, or numpy array") ∧
    bootstrapMean (.pylist xs) n ci s = .error (.typeError flexibleTypeMsg) ∧
    ∃ r, bootstrapMean c n ci s = .ok r := by
  refine ⟨rfl, ?_, ?_⟩
  · have hnz : ¬ xs.length = 0 := by simpa [List.length_eq_zero] using hne
    unfold bootstrapMean coerceInput
    simp only [hnz, if_false, hstr]
  · exact ⟨_, bootstrapMean_eq c qs n ci s hq hqne⟩

/-- C8 witness: the theorem instantiated on a dict-like object, the
string sample `["a"]` and the numeric sample `[3]`. -/
theorem C8_validation_witness :
    bootstrapMean (.other "dict") 4 95 0 =
      .error (.valueError "Input data must be a Pandas Series, list, or numpy array") ∧
    bootstrapMean (.pylist [.str "a"]) 4 95 0 = .error (.typeError flexibleTypeMsg) ∧
    ∃ r, bootstrapMean (.pylist [.num 3]) 4 95 0 = .ok r :=
  C8_validation "dict" [.str "a"] (.pylist [.num 3]) [3] 4 95 0 rfl (by decide) rfl (by decide)

/-- C10: when the file cannot be opened, `detect_encoding`'s `open` —
which sits outside every `try` — raises before any parse attempt, and
the `OSError` propagates unchanged: the result is that error, the
attempt trace is empty, and no `IngestionError` is involved. -/
theorem C10_open_error_propagates (f : CsvFile) (m : String) (h : f.openError = some m) :
    readCsvRobustTrace f = (.error (.osError m), []) := by
  unfold readCsvRobustTrace
  rw [h]

/-- C10 witness: the theorem applied to a concrete unopenable file. -/
theorem C10_open_error_propagates_witness :
    readCsvRobustTrace fileMissing =
      (.error (.osError "No such file or directory: 'missing.csv'"), []) :=
  C10_open_error_propagates fileMissing _ rfl

end AutoEmpirical
